import Mathlib

/-!
Verification of the apiss operator-monitoring API.

The repository contains three revisions of the same Express application
(two concatenated in `index.js`, one unnamed earlier file).  The later
revision of `index.js` (here called "the later revision") holds the
routes the claims cite by line number: `/operador/cadastrar`,
`/operador/list`, `/monitoramento/registrar`,
`GET /monitoramento/:operadorId`, `PUT /monitoramento/:operadorId/status`,
plus the middlewares `verificarAutenticacao` and `verificarSupervisor`.
The earlier revision's `GET /monitoramento/:operadorId` (with its
`horario_almoco` column and synthesized-default message) is also embedded
for the read-path claim.

Store conventions of the embedding:
* the relational store is two lists of rows (`usuarios`, `monitoramento`);
* PostgREST `.single()` succeeds exactly when the filtered result has one
  row, otherwise the handler sees `null` data (modelled by `single`);
* a Supabase upsert payload is a set of present columns (`Option` fields
  of `UpdatePayload`, `none` = column absent from payload); on conflict
  the present columns overwrite, absent columns keep the stored value; on
  insert absent columns take the column defaults (null timestamps,
  offline flag);
* a plain insert fails (and changes nothing) when a row with the same
  `operador_id` already exists: the table's unique key;
* timestamps are naturals, strings stay strings.
-/

namespace Apiss

/-- A row of the `usuarios` table: id, nome, email (unique), senha
(bcrypt digest), nivel_acesso (role string), supervisor_id (nullable). -/
structure Usuario where
  id : Nat
  nome : String
  email : String
  senha : String
  nivel_acesso : String
  supervisor_id : Option Nat
  deriving DecidableEq, Repr

/-- A row of the later revision's `monitoramento` table, keyed by
`operador_id` (unique). `none` timestamps are SQL nulls. -/
structure MonRow where
  operador_id : Nat
  status_online : Bool
  horario_entrada : Option Nat
  horario_almoco_inicio : Option Nat
  horario_almoco_fim : Option Nat
  horario_saida : Option Nat
  ultima_atividade : Option Nat
  deriving DecidableEq, Repr

/-- A row of the earlier revision's `monitoramento` table, which has a
single `horario_almoco` column and no `ultima_atividade`. -/
structure MonRowV1 where
  operador_id : Nat
  status_online : Bool
  horario_entrada : Option Nat
  horario_almoco : Option Nat
  horario_saida : Option Nat
  deriving DecidableEq, Repr

/-- The later revision's database state.  `nextId` models the store's
id sequence for `usuarios` inserts. -/
structure DB where
  usuarios : List Usuario
  monitoramento : List MonRow
  nextId : Nat
  deriving DecidableEq, Repr

/-- PostgREST `.single()`: data is non-null exactly when the filtered
result has exactly one row. -/
def single {α : Type} (rows : List α) : Option α :=
  match rows with
  | [x] => some x
  | _ => none

/-- A Supabase upsert/insert payload for `monitoramento`: `some v` is a
column present in the payload with value `v`, `none` a column absent
from the payload. (The handlers never put a SQL null in a payload.) -/
structure UpdatePayload where
  operador_id : Nat
  status_online : Option Bool
  horario_entrada : Option Nat
  horario_almoco_inicio : Option Nat
  horario_almoco_fim : Option Nat
  horario_saida : Option Nat
  ultima_atividade : Option Nat
  deriving DecidableEq, Repr

/-- The payload with only the key present; handlers add columns to it. -/
def payloadBase (opId : Nat) : UpdatePayload :=
  { operador_id := opId
    status_online := none
    horario_entrada := none
    horario_almoco_inicio := none
    horario_almoco_fim := none
    horario_saida := none
    ultima_atividade := none }

/-- Column resolution on conflict: a column present in the payload
overwrites, an absent one keeps the stored value. -/
def colUpdate (new old : Option Nat) : Option Nat :=
  match new with
  | some v => some v
  | none => old

/-- `ON CONFLICT (operador_id) DO UPDATE`: apply the payload's present
columns to the stored row. -/
def applyPayload (p : UpdatePayload) (r : MonRow) : MonRow :=
  { operador_id := r.operador_id
    status_online := p.status_online.getD r.status_online
    horario_entrada := colUpdate p.horario_entrada r.horario_entrada
    horario_almoco_inicio := colUpdate p.horario_almoco_inicio r.horario_almoco_inicio
    horario_almoco_fim := colUpdate p.horario_almoco_fim r.horario_almoco_fim
    horario_saida := colUpdate p.horario_saida r.horario_saida
    ultima_atividade := colUpdate p.ultima_atividade r.ultima_atividade }

/-- The all-defaults row for an operator: offline, every timestamp null.
These are the table's column defaults, and also the record the read path
synthesizes for an operator with no row. -/
def defaultMonRow (opId : Nat) : MonRow :=
  { operador_id := opId
    status_online := false
    horario_entrada := none
    horario_almoco_inicio := none
    horario_almoco_fim := none
    horario_saida := none
    ultima_atividade := none }

/-- A freshly inserted row: the payload's present columns over the
column defaults. -/
def rowOfPayload (p : UpdatePayload) : MonRow :=
  applyPayload p (defaultMonRow p.operador_id)

/-- The stored row for an operator, if any. -/
def findMon (mon : List MonRow) (opId : Nat) : Option MonRow :=
  mon.find? (fun r => r.operador_id == opId)

/-- `upsert(payload, ON CONFLICT operador_id)`: update the conflicting
row if one exists, otherwise append a fresh row. -/
def upsertMon (mon : List MonRow) (p : UpdatePayload) : List MonRow :=
  if mon.any (fun r => r.operador_id == p.operador_id) then
    mon.map (fun r => if r.operador_id == p.operador_id then applyPayload p r else r)
  else
    mon ++ [rowOfPayload p]

/-- A plain `insert` into `monitoramento`: fails on the unique
`operador_id` key, leaving the table unchanged. -/
def insertMon (mon : List MonRow) (p : UpdatePayload) : Except Unit (List MonRow) :=
  if mon.any (fun r => r.operador_id == p.operador_id) then
    .error ()
  else
    .ok (mon ++ [rowOfPayload p])

/-- The record a reader observes for an operator: the stored row, or the
synthesized offline default when none exists. -/
def effectiveMon (mon : List MonRow) (opId : Nat) : MonRow :=
  (findMon mon opId).getD (defaultMonRow opId)

/-- An `insert` whose result is never inspected (as in
`/operador/cadastrar`'s monitoring insert): on failure the table is
simply left unchanged and execution continues. -/
def insertMonIgnored (mon : List MonRow) (p : UpdatePayload) : List MonRow :=
  match insertMon mon p with
  | .ok m => m
  | .error _ => mon

/-! ## Session tokens and the Access Gate middlewares -/

/-- The claims `jwt.sign` puts in a token and `jwt.verify` hands back:
`{ userId: user.id, nivel_acesso: user.nivel_acesso }`. -/
structure Claims where
  userId : Nat
  nivel_acesso : String
  deriving DecidableEq, Repr

/-- A raw bearer token as the middleware receives it.  A `signed` token
carries its claims, its expiry, and the secret it was signed with
(symbolic signature: the signature verifies exactly when `signedWith`
equals the verifier's secret, i.e. the token was minted, untampered,
under that secret).  `malformed` is any string `jwt.verify` cannot
decode. -/
inductive RawToken where
  | malformed : RawToken
  | signed (userId : Nat) (nivel_acesso : String) (exp : Nat) (signedWith : Nat) : RawToken
  deriving DecidableEq, Repr

/-- The `TokenError` kinds `jwt.verify` can throw. -/
inductive TokenError where
  | Malformed : TokenError
  | SignatureMismatch : TokenError
  | Expired : TokenError
  deriving DecidableEq, Repr

/-- `jwt.verify(token, secret)` at time `now`: signature is checked
before expiry; a token is expired once `now` reaches `exp`. -/
def jwtVerify (secret now : Nat) : RawToken → Except TokenError Claims
  | .malformed => .error .Malformed
  | .signed u n x s =>
    if s ≠ secret then .error .SignatureMismatch
    else if x ≤ now then .error .Expired
    else .ok { userId := u, nivel_acesso := n }

/-- The token slots of an inbound request:
`req.session.token` and `req.cookies.session_token`. -/
structure ReqAuth where
  sessionToken : Option RawToken
  cookieToken : Option RawToken
  deriving DecidableEq, Repr

/-- `req.session.token || req.cookies.session_token`. -/
def tokenFrom (r : ReqAuth) : Option RawToken :=
  match r.sessionToken with
  | some t => some t
  | none => r.cookieToken

/-- The `verificarAutenticacao` middleware as a route builder: respond
401 (through `e`) when the token is missing or `jwt.verify` throws,
otherwise attach the decoded claims and run the continuation `k`. -/
def withAuth {α : Type} (secret now : Nat) (req : ReqAuth)
    (e : Nat → String → α) (k : Claims → α) : α :=
  match tokenFrom req with
  | none => e 401 "Usuário não autenticado"
  | some t =>
    match jwtVerify secret now t with
    | .error _ => e 401 "Token inválido ou expirado"
    | .ok c => k c

/-- The `verificarSupervisor` middleware: 403 unless the attached
claims carry the supervisor access level. -/
def withSupervisor {α : Type} (e : Nat → String → α) (k : Claims → α)
    (c : Claims) : α :=
  if c.nivel_acesso ≠ "supervisor" then e 403 "Acesso restrito a supervisores"
  else k c

/-! ## Route handlers (later revision of `index.js`) -/

/-- Symbolic bcrypt: a fresh digest of the plaintext. -/
def bcryptHash (senha : String) : String :=
  "bcrypt-digest:" ++ senha

/-- Response of `POST /monitoramento/registrar`. -/
structure RegistrarResp where
  status : Nat
  message : Option String
  horario : Option Nat
  error : Option String
  deriving DecidableEq, Repr

/-- The `switch (tipo)` of `/monitoramento/registrar`: the upsert
payload for a recognized event kind (`none` on the default branch).
Every recognized kind's payload carries the key and
`ultima_atividade = agora`. -/
def registrarPayload (tipo : String) (uid agora : Nat) : Option UpdatePayload :=
  let base := { payloadBase uid with ultima_atividade := some agora }
  if tipo = "entrada" then
    some { base with horario_entrada := some agora, status_online := some true }
  else if tipo = "saida" then
    some { base with horario_saida := some agora, status_online := some false }
  else if tipo = "almoco_inicio" then
    some { base with horario_almoco_inicio := some agora }
  else if tipo = "almoco_fim" then
    some { base with horario_almoco_fim := some agora }
  else if tipo = "ping" then
    some { base with status_online := some true }
  else
    none

/-- Handler of `POST /monitoramento/registrar` (after authentication):
400 on an unrecognized kind with no store access, otherwise upsert on
`operador_id` and answer 200 with the event timestamp. -/
def registrarHandler (c : Claims) (tipo : String) (agora : Nat) (db : DB) :
    RegistrarResp × DB :=
  match registrarPayload tipo c.userId agora with
  | none =>
    ({ status := 400, message := none, horario := none,
       error := some "Tipo de evento inválido" }, db)
  | some p =>
    ({ status := 200,
       message := some ("Evento " ++ tipo ++ " registrado com sucesso"),
       horario := some agora, error := none },
     { db with monitoramento := upsertMon db.monitoramento p })

/-- Full route `POST /monitoramento/registrar`: note the middleware
chain is `verificarAutenticacao` only — there is no role gate. -/
def registrarRoute (secret now : Nat) (req : ReqAuth) (tipo : String) (db : DB) :
    RegistrarResp × DB :=
  withAuth secret now req
    (fun s m => ({ status := s, message := none, horario := none, error := some m }, db))
    (fun c => registrarHandler c tipo now db)

/-- Response of `POST /operador/cadastrar`. -/
structure CadastrarResp where
  status : Nat
  message : Option String
  operador_id : Option Nat
  error : Option String
  deriving DecidableEq, Repr

/-- Handler of `POST /operador/cadastrar` (after both middlewares):
hash the password; `.single()`-check the email (400 when a row is
found); insert the user with `nivel_acesso = 'operador'` and
`supervisor_id` = caller (a unique-key violation on email throws, hence
500); insert the initial monitoring row `{operador_id, status_online:
false}` WITHOUT inspecting its error (`monInsertFails` injects a store
failure of that insert); answer 201 with the new id. -/
def cadastrarHandler (c : Claims) (nome email senha : String)
    (monInsertFails : Bool) (db : DB) : CadastrarResp × DB :=
  let senhaHash := bcryptHash senha
  match single (db.usuarios.filter (fun u => u.email == email)) with
  | some _ =>
    ({ status := 400, message := none, operador_id := none,
       error := some "E-mail já cadastrado" }, db)
  | none =>
    if db.usuarios.any (fun u => u.email == email) then
      ({ status := 500, message := none, operador_id := none,
         error := some "Erro ao cadastrar operador" }, db)
    else
      let novo : Usuario :=
        { id := db.nextId, nome := nome, email := email, senha := senhaHash,
          nivel_acesso := "operador", supervisor_id := some c.userId }
      let monPayload := { payloadBase novo.id with status_online := some false }
      let mon2 :=
        if monInsertFails then db.monitoramento
        else insertMonIgnored db.monitoramento monPayload
      ({ status := 201, message := some "Operador cadastrado com sucesso",
         operador_id := some novo.id, error := none },
       { usuarios := db.usuarios ++ [novo], monitoramento := mon2,
         nextId := db.nextId + 1 })

/-- Full route `POST /operador/cadastrar`
(`verificarAutenticacao` then `verificarSupervisor`). -/
def cadastrarRoute (secret now : Nat) (req : ReqAuth) (nome email senha : String)
    (monInsertFails : Bool) (db : DB) : CadastrarResp × DB :=
  let e := fun s m =>
    (({ status := s, message := none, operador_id := none, error := some m } :
      CadastrarResp), db)
  withAuth secret now req e
    (withSupervisor e (fun c => cadastrarHandler c nome email senha monInsertFails db))

/-- An element of the `GET /operador/list` response array.  The handler
selects exactly `id, nome, email, nivel_acesso`; `online` records
whether an online flag is present in the JSON object (the handler never
sets one, so it is `none` on every code path). -/
structure OperadorEntry where
  id : Nat
  nome : String
  email : String
  nivel_acesso : String
  online : Option Bool
  deriving DecidableEq, Repr

/-- Response of `GET /operador/list`. -/
structure ListResp where
  status : Nat
  data : Option (List OperadorEntry)
  error : Option String
  deriving DecidableEq, Repr

/-- The projection `select('id, nome, email, nivel_acesso')`. -/
def entryOfUsuario (u : Usuario) : OperadorEntry :=
  { id := u.id, nome := u.nome, email := u.email,
    nivel_acesso := u.nivel_acesso, online := none }

/-- Handler of `GET /operador/list` (after both middlewares): the users
whose `supervisor_id` equals the caller's id, projected; no store
write. -/
def listHandler (c : Claims) (db : DB) : ListResp × DB :=
  let ops := (db.usuarios.filter (fun u => u.supervisor_id == some c.userId)).map
    entryOfUsuario
  ({ status := 200, data := some ops, error := none }, db)

/-- Full route `GET /operador/list`. -/
def listRoute (secret now : Nat) (req : ReqAuth) (db : DB) : ListResp × DB :=
  let e := fun s m => (({ status := s, data := none, error := some m } : ListResp), db)
  withAuth secret now req e (withSupervisor e (fun c => listHandler c db))

/-- The `status` member of the later revision's
`GET /monitoramento/:operadorId` 200 body:
`monitoramento || { status_online: false }` — either the stored row in
full, or the literal object with only an offline flag (no timestamp
fields, no message). -/
inductive StatusBody where
  | stored (r : MonRow) : StatusBody
  | offlineDefault : StatusBody
  deriving DecidableEq, Repr

/-- Response of the later revision's `GET /monitoramento/:operadorId`.
`mensagem` records an informational-note field in the JSON body; this
revision never emits one. -/
structure GetMonResp where
  status : Nat
  operador : Option (Nat × String)
  statusBody : Option StatusBody
  mensagem : Option String
  error : Option String
  deriving DecidableEq, Repr

/-- Handler of the later revision's `GET /monitoramento/:operadorId`
(after both middlewares): 404 when no single `usuarios` row has this id
AND this caller as `supervisor_id`; otherwise 200 with the stored row
or the offline default, never writing the store. -/
def getMonHandler (c : Claims) (opId : Nat) (db : DB) : GetMonResp × DB :=
  match single (db.usuarios.filter
      (fun u => u.id == opId && u.supervisor_id == some c.userId)) with
  | none =>
    ({ status := 404, operador := none, statusBody := none, mensagem := none,
       error := some "Operador não encontrado" }, db)
  | some op =>
    let m := single (db.monitoramento.filter (fun r => r.operador_id == opId))
    ({ status := 200, operador := some (op.id, op.nome),
       statusBody := some (match m with
         | some r => StatusBody.stored r
         | none => StatusBody.offlineDefault),
       mensagem := none, error := none }, db)

/-- Full route `GET /monitoramento/:operadorId` (later revision). -/
def getMonRoute (secret now : Nat) (req : ReqAuth) (opId : Nat) (db : DB) :
    GetMonResp × DB :=
  let e := fun s m =>
    (({ status := s, operador := none, statusBody := none, mensagem := none,
        error := some m } : GetMonResp), db)
  withAuth secret now req e (withSupervisor e (fun c => getMonHandler c opId db))

/-- Response of `PUT /monitoramento/:operadorId/status` (later
revision). -/
structure PutStatusResp where
  status : Nat
  message : Option String
  operador_id : Option Nat
  statusFlag : Option Bool
  error : Option String
  deriving DecidableEq, Repr

/-- Handler of the later revision's
`PUT /monitoramento/:operadorId/status` (after both middlewares): the
same ownership `.single()` check, then an upsert of
`{operador_id, status_online}` on conflict `operador_id`. -/
def putStatusHandler (c : Claims) (opId : Nat) (status_online : Bool) (db : DB) :
    PutStatusResp × DB :=
  match single (db.usuarios.filter
      (fun u => u.id == opId && u.supervisor_id == some c.userId)) with
  | none =>
    ({ status := 404, message := none, operador_id := none, statusFlag := none,
       error := some "Operador não encontrado" }, db)
  | some _ =>
    let p := { payloadBase opId with status_online := some status_online }
    ({ status := 200, message := some "Status atualizado com sucesso",
       operador_id := some opId, statusFlag := some status_online, error := none },
     { db with monitoramento := upsertMon db.monitoramento p })

/-- Full route `PUT /monitoramento/:operadorId/status` (later
revision). -/
def putStatusRoute (secret now : Nat) (req : ReqAuth) (opId : Nat)
    (status_online : Bool) (db : DB) : PutStatusResp × DB :=
  let e := fun s m =>
    (({ status := s, message := none, operador_id := none, statusFlag := none,
        error := some m } : PutStatusResp), db)
  withAuth secret now req e
    (withSupervisor e (fun c => putStatusHandler c opId status_online db))

/-! ## The earlier revision's `GET /monitoramento/:operadorId` -/

/-- Response of the earlier revision's `GET /monitoramento/:operadorId`:
the selected columns are spread into the body (`horario_almoco` in this
schema), and the no-record branch answers 200 with the synthesized
offline default and an informational `mensagem`. -/
structure GetMonV1Resp where
  status : Nat
  operador_id : Option Nat
  nome : Option String
  status_online : Option Bool
  horario_entrada : Option Nat
  horario_almoco : Option Nat
  horario_saida : Option Nat
  mensagem : Option String
  error : Option String
  deriving DecidableEq, Repr

/-- Handler of the earlier revision's `GET /monitoramento/:operadorId`
(after both middlewares), over its own `monitoramento` schema; returns
the (unchanged) table to witness that the read path writes nothing. -/
def getMonV1Handler (c : Claims) (opId : Nat) (usuarios : List Usuario)
    (mon : List MonRowV1) : GetMonV1Resp × List MonRowV1 :=
  match single (usuarios.filter
      (fun u => u.id == opId && u.supervisor_id == some c.userId)) with
  | none =>
    ({ status := 404, operador_id := none, nome := none, status_online := none,
       horario_entrada := none, horario_almoco := none, horario_saida := none,
       mensagem := none,
       error := some "Operador não encontrado ou não está sob sua supervisão" }, mon)
  | some op =>
    match single (mon.filter (fun r => r.operador_id == opId)) with
    | none =>
      ({ status := 200, operador_id := some op.id, nome := some op.nome,
         status_online := some false, horario_entrada := none,
         horario_almoco := none, horario_saida := none,
         mensagem := some "Dados de monitoramento não encontrados, assumindo status offline",
         error := none }, mon)
    | some r =>
      ({ status := 200, operador_id := some op.id, nome := some op.nome,
         status_online := some r.status_online,
         horario_entrada := r.horario_entrada,
         horario_almoco := r.horario_almoco,
         horario_saida := r.horario_saida,
         mensagem := none, error := none }, mon)

/-! ## The per-operator uniqueness invariant and store lemmas -/

/-- The `monitoramento` invariant: at most one row per operator — the
table's keys are pairwise distinct. -/
def MonKeysNodup (mon : List MonRow) : Prop :=
  (mon.map (fun r => r.operador_id)).Nodup

instance (mon : List MonRow) : Decidable (MonKeysNodup mon) := by
  unfold MonKeysNodup
  infer_instance

theorem applyPayload_operador_id (p : UpdatePayload) (r : MonRow) :
    (applyPayload p r).operador_id = r.operador_id := rfl

theorem rowOfPayload_operador_id (p : UpdatePayload) :
    (rowOfPayload p).operador_id = p.operador_id := rfl

theorem updateFn_operador_id (p : UpdatePayload) (r : MonRow) :
    (if r.operador_id == p.operador_id then applyPayload p r else r).operador_id
      = r.operador_id := by
  by_cases h : r.operador_id = p.operador_id <;>
    simp [h, applyPayload_operador_id]

theorem comp_key_updateFn (p : UpdatePayload) (opId : Nat) :
    ((fun r : MonRow => r.operador_id == opId) ∘ (fun r =>
        if r.operador_id == p.operador_id then applyPayload p r else r))
      = (fun r : MonRow => r.operador_id == opId) := by
  funext r
  simp only [Function.comp_apply]
  rw [updateFn_operador_id]

theorem findMon_map_update (mon : List MonRow) (p : UpdatePayload) :
    findMon (mon.map (fun r =>
        if r.operador_id == p.operador_id then applyPayload p r else r))
      p.operador_id
      = (findMon mon p.operador_id).map (fun r => applyPayload p r) := by
  simp only [findMon]
  rw [List.find?_map, comp_key_updateFn]
  cases hf : List.find? (fun r => r.operador_id == p.operador_id) mon with
  | none => rfl
  | some r =>
    have hre : r.operador_id = p.operador_id := by
      simpa using List.find?_some hf
    rw [Option.map_some', Option.map_some']
    simp [hre]

theorem findMon_append (mon₁ mon₂ : List MonRow) (opId : Nat) :
    findMon (mon₁ ++ mon₂) opId = (findMon mon₁ opId).or (findMon mon₂ opId) := by
  simp [findMon, List.find?_append]

theorem findMon_eq_none_of_any_eq_false (mon : List MonRow) (opId : Nat)
    (h : mon.any (fun r => r.operador_id == opId) = false) :
    findMon mon opId = none := by
  rw [findMon, List.find?_eq_none]
  exact (List.any_eq_false.mp h)

/-- The record observed for the upserted operator after an upsert is
exactly the payload applied to the previously observed record. -/
theorem findMon_upsertMon_self (mon : List MonRow) (p : UpdatePayload) :
    findMon (upsertMon mon p) p.operador_id
      = some (applyPayload p (effectiveMon mon p.operador_id)) := by
  unfold upsertMon
  by_cases h : mon.any (fun r => r.operador_id == p.operador_id)
  · simp only [h, if_true]
    rw [findMon_map_update]
    have hsome : (findMon mon p.operador_id).isSome := by
      rw [findMon, List.find?_isSome]
      exact List.any_eq_true.mp h
    obtain ⟨r, hr⟩ := Option.isSome_iff_exists.mp hsome
    rw [hr]
    simp [effectiveMon, hr]
  · have hfalse : mon.any (fun r => r.operador_id == p.operador_id) = false := by
      simpa using h
    simp only [hfalse, Bool.false_eq_true, if_false]
    rw [findMon_append, findMon_eq_none_of_any_eq_false mon _ hfalse, Option.none_or,
      effectiveMon, findMon_eq_none_of_any_eq_false mon _ hfalse]
    have hkey : ((applyPayload p (defaultMonRow p.operador_id)).operador_id
        == p.operador_id) = true := by
      simp [applyPayload_operador_id, defaultMonRow]
    simp only [findMon, List.find?_cons, rowOfPayload, hkey, Option.getD_none]

/-- An upsert leaves every other operator's record untouched. -/
theorem findMon_upsertMon_ne (mon : List MonRow) (p : UpdatePayload) (opId : Nat)
    (h : opId ≠ p.operador_id) :
    findMon (upsertMon mon p) opId = findMon mon opId := by
  unfold upsertMon
  by_cases hc : mon.any (fun r => r.operador_id == p.operador_id)
  · simp only [hc, if_true]
    simp only [findMon]
    rw [List.find?_map, comp_key_updateFn]
    cases hf : List.find? (fun r => r.operador_id == opId) mon with
    | none => rfl
    | some r =>
      have hr : r.operador_id = opId := by
        simpa using List.find?_some hf
      have hcond : (r.operador_id == p.operador_id) = false := by
        rw [hr, beq_eq_false_iff_ne]
        exact h
      rw [Option.map_some', hcond]
      simp
  · have hfalse : mon.any (fun r => r.operador_id == p.operador_id) = false := by
      simpa using hc
    simp only [hfalse, Bool.false_eq_true, if_false]
    rw [findMon_append]
    have hone : findMon [rowOfPayload p] opId = none := by
      have hkey : ((rowOfPayload p).operador_id == opId) = false := by
        rw [rowOfPayload_operador_id, beq_eq_false_iff_ne]
        exact Ne.symm h
      simp [findMon, List.find?_cons, hkey]
    rw [hone, Option.or_none]

theorem effectiveMon_upsertMon_self (mon : List MonRow) (p : UpdatePayload) :
    effectiveMon (upsertMon mon p) p.operador_id
      = applyPayload p (effectiveMon mon p.operador_id) := by
  rw [effectiveMon, findMon_upsertMon_self]
  rfl

/-- An upsert preserves the one-row-per-operator invariant. -/
theorem monKeysNodup_upsertMon (mon : List MonRow) (p : UpdatePayload)
    (h : MonKeysNodup mon) : MonKeysNodup (upsertMon mon p) := by
  unfold upsertMon
  by_cases hc : mon.any (fun r => r.operador_id == p.operador_id)
  · simp only [hc, if_true]
    unfold MonKeysNodup at h ⊢
    rw [List.map_map]
    have : mon.map ((fun r => r.operador_id) ∘ (fun r =>
        if r.operador_id == p.operador_id then applyPayload p r else r))
        = mon.map (fun r => r.operador_id) := by
      apply List.map_congr_left
      intro a _
      simp only [Function.comp_apply]
      rw [updateFn_operador_id]
    rw [this]
    exact h
  · have hfalse : mon.any (fun r => r.operador_id == p.operador_id) = false := by
      simpa using hc
    simp only [hfalse, Bool.false_eq_true, if_false]
    unfold MonKeysNodup at h ⊢
    rw [List.map_append, List.nodup_append]
    refine ⟨h, by simp, ?_⟩
    intro a ha hb
    have hb' : a = p.operador_id := by
      simpa [rowOfPayload_operador_id] using hb
    obtain ⟨r, hr, hid⟩ := List.mem_map.mp ha
    have hfr : r.operador_id ≠ p.operador_id := by
      simpa using List.any_eq_false.mp hfalse r hr
    exact hfr (hid.trans hb')

/-- A constraint-respecting insert (error inspected or not) preserves
the one-row-per-operator invariant. -/
theorem monKeysNodup_insertMonIgnored (mon : List MonRow) (p : UpdatePayload)
    (h : MonKeysNodup mon) : MonKeysNodup (insertMonIgnored mon p) := by
  unfold insertMonIgnored insertMon
  by_cases hc : mon.any (fun r => r.operador_id == p.operador_id)
  · simp only [hc, if_true]
    exact h
  · have hfalse : mon.any (fun r => r.operador_id == p.operador_id) = false := by
      simpa using hc
    simp only [hfalse, Bool.false_eq_true, if_false]
    unfold MonKeysNodup at h ⊢
    rw [List.map_append, List.nodup_append]
    refine ⟨h, by simp, ?_⟩
    intro a ha hb
    have hb' : a = p.operador_id := by
      simpa [rowOfPayload_operador_id] using hb
    obtain ⟨r, hr, hid⟩ := List.mem_map.mp ha
    have hfr : r.operador_id ≠ p.operador_id := by
      simpa using List.any_eq_false.mp hfalse r hr
    exact hfr (hid.trans hb')

/-! ## Helper lemmas on the Access Gate and the routes -/

/-- A request whose session slot carries a token minted with the given
claims, expiry and signing secret. -/
def reqWithToken (uid : Nat) (nivel : String) (exp secret : Nat) : ReqAuth :=
  { sessionToken := some (.signed uid nivel exp secret), cookieToken := none }

theorem jwtVerify_valid (secret now uid : Nat) (nivel : String) (exp : Nat)
    (h : now < exp) :
    jwtVerify secret now (.signed uid nivel exp secret)
      = .ok { userId := uid, nivel_acesso := nivel } := by
  simp [jwtVerify, not_le.mpr h]

theorem withAuth_valid {α : Type} (secret now uid : Nat) (nivel : String)
    (exp : Nat) (ck : Option RawToken) (h : now < exp)
    (e : Nat → String → α) (k : Claims → α) :
    withAuth secret now
        { sessionToken := some (.signed uid nivel exp secret), cookieToken := ck } e k
      = k { userId := uid, nivel_acesso := nivel } := by
  simp only [withAuth, tokenFrom]
  rw [jwtVerify_valid secret now uid nivel exp h]

theorem withSupervisor_pass {α : Type} (e : Nat → String → α) (k : Claims → α)
    (uid : Nat) :
    withSupervisor e k { userId := uid, nivel_acesso := "supervisor" }
      = k { userId := uid, nivel_acesso := "supervisor" } := by
  simp [withSupervisor]

theorem registrarRoute_valid (secret now uid : Nat) (nivel : String) (exp : Nat)
    (tipo : String) (db : DB) (h : now < exp) :
    registrarRoute secret now (reqWithToken uid nivel exp secret) tipo db
      = registrarHandler { userId := uid, nivel_acesso := nivel } tipo now db := by
  simp only [registrarRoute, reqWithToken]
  exact withAuth_valid secret now uid nivel exp none h _ _

theorem cadastrarRoute_valid (secret now uid exp : Nat) (nome email senha : String)
    (fails : Bool) (db : DB) (h : now < exp) :
    cadastrarRoute secret now (reqWithToken uid "supervisor" exp secret)
        nome email senha fails db
      = cadastrarHandler { userId := uid, nivel_acesso := "supervisor" }
          nome email senha fails db := by
  simp only [cadastrarRoute, reqWithToken]
  rw [withAuth_valid secret now uid "supervisor" exp none h, withSupervisor_pass]

theorem listRoute_valid (secret now uid exp : Nat) (db : DB) (h : now < exp) :
    listRoute secret now (reqWithToken uid "supervisor" exp secret) db
      = listHandler { userId := uid, nivel_acesso := "supervisor" } db := by
  simp only [listRoute, reqWithToken]
  rw [withAuth_valid secret now uid "supervisor" exp none h, withSupervisor_pass]

theorem getMonRoute_valid (secret now uid exp opId : Nat) (db : DB) (h : now < exp) :
    getMonRoute secret now (reqWithToken uid "supervisor" exp secret) opId db
      = getMonHandler { userId := uid, nivel_acesso := "supervisor" } opId db := by
  simp only [getMonRoute, reqWithToken]
  rw [withAuth_valid secret now uid "supervisor" exp none h, withSupervisor_pass]

theorem putStatusRoute_valid (secret now uid exp opId : Nat) (b : Bool) (db : DB)
    (h : now < exp) :
    putStatusRoute secret now (reqWithToken uid "supervisor" exp secret) opId b db
      = putStatusHandler { userId := uid, nivel_acesso := "supervisor" } opId b db := by
  simp only [putStatusRoute, reqWithToken]
  rw [withAuth_valid secret now uid "supervisor" exp none h, withSupervisor_pass]

/-- A `.single()`-style filter returns exactly the one matching row when
some key of the rows is duplicate-free, the given row matches, and the
predicate forces that key. -/
theorem filter_eq_singleton_of_nodup_key {α β : Type} [DecidableEq β]
    (key : α → β) (pred : α → Bool) (l : List α)
    (hnd : (l.map key).Nodup) (u : α) (hu : u ∈ l) (hpu : pred u = true)
    (hkey : ∀ v, pred v = true → key v = key u) :
    l.filter pred = [u] := by
  induction l with
  | nil => cases hu
  | cons a t ih =>
    rw [List.map_cons, List.nodup_cons] at hnd
    obtain ⟨hka, hndt⟩ := hnd
    by_cases hpa : pred a = true
    · have hau : a = u := by
        rcases List.mem_cons.mp hu with h | h
        · exact h.symm
        · exact absurd (List.mem_map.mpr ⟨u, h, (hkey a hpa).symm⟩) hka
      subst hau
      have htnil : t.filter pred = [] := by
        rw [List.filter_eq_nil_iff]
        intro v hv hpv
        exact hka (List.mem_map.mpr ⟨v, hv, hkey v hpv⟩)
      simp [List.filter_cons, hpa, htnil]
    · have hut : u ∈ t := by
        rcases List.mem_cons.mp hu with h | h
        · subst h; exact absurd hpu hpa
        · exact h
      have hpaf : pred a = false := by
        simpa using hpa
      simp [List.filter_cons, hpaf, ih hndt hut]

/-- A constrained insert whose key is genuinely fresh appends the row. -/
theorem insertMonIgnored_not_present (mon : List MonRow) (p : UpdatePayload)
    (h : ∀ r ∈ mon, r.operador_id ≠ p.operador_id) :
    insertMonIgnored mon p = mon ++ [rowOfPayload p] := by
  unfold insertMonIgnored insertMon
  have hany : mon.any (fun r => r.operador_id == p.operador_id) = false := by
    rw [List.any_eq_false]
    intro x hx
    simpa using h x hx
  rw [hany]
  simp

/-- `/operador/cadastrar`'s handler on a fresh email: the 201 response
and the two inserts (the monitoring insert subject to the ignored-error
fault flag). -/
theorem cadastrarHandler_fresh_eq (c : Claims) (nome email senha : String)
    (fails : Bool) (db : DB)
    (hnone : ∀ u ∈ db.usuarios, u.email ≠ email) :
    cadastrarHandler c nome email senha fails db
      = ({ status := 201, message := some "Operador cadastrado com sucesso",
           operador_id := some db.nextId, error := none },
         { usuarios := db.usuarios ++
             [{ id := db.nextId, nome := nome, email := email,
                senha := bcryptHash senha, nivel_acesso := "operador",
                supervisor_id := some c.userId }],
           monitoramento :=
             if fails then db.monitoramento
             else insertMonIgnored db.monitoramento
               { payloadBase db.nextId with status_online := some false },
           nextId := db.nextId + 1 }) := by
  unfold cadastrarHandler
  have hfilter : db.usuarios.filter (fun u => u.email == email) = [] := by
    rw [List.filter_eq_nil_iff]
    intro u hu
    simpa using hnone u hu
  have hany : db.usuarios.any (fun u => u.email == email) = false := by
    rw [List.any_eq_false]
    intro u hu
    simpa using hnone u hu
  rw [hfilter, hany]
  simp [single]

/-- `/operador/cadastrar`'s handler on a duplicate email (under the
unique-email invariant): 400, nothing written. -/
theorem cadastrarHandler_dup_eq (c : Claims) (nome email senha : String)
    (fails : Bool) (db : DB)
    (hnodup : (db.usuarios.map (fun u => u.email)).Nodup)
    (u : Usuario) (hu : u ∈ db.usuarios) (he : u.email = email) :
    cadastrarHandler c nome email senha fails db
      = ({ status := 400, message := none, operador_id := none,
           error := some "E-mail já cadastrado" }, db) := by
  unfold cadastrarHandler
  have hfilter : db.usuarios.filter (fun v => v.email == email) = [u] := by
    apply filter_eq_singleton_of_nodup_key (fun v => v.email) _ _ hnodup u hu
    · simp [he]
    · intro v hv
      rw [he]
      simpa using hv
  rw [hfilter]
  rfl

/-! ## Which shapes the `monitoramento` table can take after each route -/

theorem registrarRoute_monitoramento (secret now : Nat) (req : ReqAuth)
    (tipo : String) (db : DB) :
    (registrarRoute secret now req tipo db).2.monitoramento = db.monitoramento
      ∨ ∃ p, (registrarRoute secret now req tipo db).2.monitoramento
          = upsertMon db.monitoramento p := by
  unfold registrarRoute withAuth
  split
  · left; rfl
  · split
    · left; rfl
    · unfold registrarHandler
      dsimp only
      split
      · left; rfl
      · right; exact ⟨_, rfl⟩

theorem putStatusRoute_monitoramento (secret now : Nat) (req : ReqAuth)
    (opId : Nat) (b : Bool) (db : DB) :
    (putStatusRoute secret now req opId b db).2.monitoramento = db.monitoramento
      ∨ ∃ p, (putStatusRoute secret now req opId b db).2.monitoramento
          = upsertMon db.monitoramento p := by
  unfold putStatusRoute withAuth withSupervisor
  dsimp only
  split
  · left; rfl
  · split
    · left; rfl
    · split
      · left; rfl
      · unfold putStatusHandler
        dsimp only
        split
        · left; rfl
        · right; exact ⟨_, rfl⟩

theorem cadastrarRoute_monitoramento (secret now : Nat) (req : ReqAuth)
    (nome email senha : String) (fails : Bool) (db : DB) :
    (cadastrarRoute secret now req nome email senha fails db).2.monitoramento
        = db.monitoramento
      ∨ ∃ p, (cadastrarRoute secret now req nome email senha fails db).2.monitoramento
          = insertMonIgnored db.monitoramento p := by
  unfold cadastrarRoute withAuth withSupervisor
  dsimp only
  split
  · left; rfl
  · split
    · left; rfl
    · split
      · left; rfl
      · unfold cadastrarHandler
        dsimp only
        split
        · left; rfl
        · split
          · left; rfl
          · split
            · left; rfl
            · right; exact ⟨_, rfl⟩

/-- The read path of `GET /monitoramento/:operadorId` (later revision)
never writes: whatever the request and store, the database comes back
unchanged. -/
theorem getMonRoute_db_unchanged (secret now : Nat) (req : ReqAuth)
    (opId : Nat) (db : DB) :
    (getMonRoute secret now req opId db).2 = db := by
  unfold getMonRoute withAuth
  dsimp only
  split
  · rfl
  · split
    · rfl
    · unfold withSupervisor
      dsimp only
      split
      · rfl
      · unfold getMonHandler
        dsimp only
        split
        · rfl
        · rfl

/-! ## Claim theorems -/

/-- C1: for every authenticated call to `POST /monitoramento/registrar` with a
recognized event kind, the upsert keyed by the caller's operator id has
exactly the per-event effect — `entrada`: entrance timestamp := now and
online := true; `saida`: exit timestamp := now and online := false;
`almoco_inicio` / `almoco_fim`: that lunch timestamp := now with the online
flag unchanged; `ping`: online := true with every shift timestamp
unchanged — every one of these writes also stamps the last-activity
timestamp with now, and the response is 200 carrying that timestamp. -/
theorem registrar_event_effects (secret now uid : Nat) (nivel : String)
    (exp : Nat) (db : DB) (hexp : now < exp) :
    ((registrarRoute secret now (reqWithToken uid nivel exp secret) "entrada" db).1.status = 200
      ∧ (registrarRoute secret now (reqWithToken uid nivel exp secret) "entrada" db).1.horario = some now
      ∧ effectiveMon (registrarRoute secret now (reqWithToken uid nivel exp secret) "entrada" db).2.monitoramento uid
          = { effectiveMon db.monitoramento uid with
              horario_entrada := some now, status_online := true,
              ultima_atividade := some now })
    ∧ ((registrarRoute secret now (reqWithToken uid nivel exp secret) "saida" db).1.status = 200
      ∧ (registrarRoute secret now (reqWithToken uid nivel exp secret) "saida" db).1.horario = some now
      ∧ effectiveMon (registrarRoute secret now (reqWithToken uid nivel exp secret) "saida" db).2.monitoramento uid
          = { effectiveMon db.monitoramento uid with
              horario_saida := some now, status_online := false,
              ultima_atividade := some now })
    ∧ ((registrarRoute secret now (reqWithToken uid nivel exp secret) "almoco_inicio" db).1.status = 200
      ∧ (registrarRoute secret now (reqWithToken uid nivel exp secret) "almoco_inicio" db).1.horario = some now
      ∧ effectiveMon (registrarRoute secret now (reqWithToken uid nivel exp secret) "almoco_inicio" db).2.monitoramento uid
          = { effectiveMon db.monitoramento uid with
              horario_almoco_inicio := some now, ultima_atividade := some now })
    ∧ ((registrarRoute secret now (reqWithToken uid nivel exp secret) "almoco_fim" db).1.status = 200
      ∧ (registrarRoute secret now (reqWithToken uid nivel exp secret) "almoco_fim" db).1.horario = some now
      ∧ effectiveMon (registrarRoute secret now (reqWithToken uid nivel exp secret) "almoco_fim" db).2.monitoramento uid
          = { effectiveMon db.monitoramento uid with
              horario_almoco_fim := some now, ultima_atividade := some now })
    ∧ ((registrarRoute secret now (reqWithToken uid nivel exp secret) "ping" db).1.status = 200
      ∧ (registrarRoute secret now (reqWithToken uid nivel exp secret) "ping" db).1.horario = some now
      ∧ effectiveMon (registrarRoute secret now (reqWithToken uid nivel exp secret) "ping" db).2.monitoramento uid
          = { effectiveMon db.monitoramento uid with
              status_online := true, ultima_atividade := some now }) := by
  have hE := registrarRoute_valid secret now uid nivel exp "entrada" db hexp
  have hS := registrarRoute_valid secret now uid nivel exp "saida" db hexp
  have hAI := registrarRoute_valid secret now uid nivel exp "almoco_inicio" db hexp
  have hAF := registrarRoute_valid secret now uid nivel exp "almoco_fim" db hexp
  have hP := registrarRoute_valid secret now uid nivel exp "ping" db hexp
  refine ⟨⟨?_, ?_, ?_⟩, ⟨?_, ?_, ?_⟩, ⟨?_, ?_, ?_⟩, ⟨?_, ?_, ?_⟩, ⟨?_, ?_, ?_⟩⟩
  · rw [hE]; exact rfl
  · rw [hE]; exact rfl
  · rw [hE]
    exact effectiveMon_upsertMon_self db.monitoramento
      { operador_id := uid, status_online := some true, horario_entrada := some now,
        horario_almoco_inicio := none, horario_almoco_fim := none,
        horario_saida := none, ultima_atividade := some now }
  · rw [hS]; exact rfl
  · rw [hS]; exact rfl
  · rw [hS]
    exact effectiveMon_upsertMon_self db.monitoramento
      { operador_id := uid, status_online := some false, horario_entrada := none,
        horario_almoco_inicio := none, horario_almoco_fim := none,
        horario_saida := some now, ultima_atividade := some now }
  · rw [hAI]; exact rfl
  · rw [hAI]; exact rfl
  · rw [hAI]
    exact effectiveMon_upsertMon_self db.monitoramento
      { operador_id := uid, status_online := none, horario_entrada := none,
        horario_almoco_inicio := some now, horario_almoco_fim := none,
        horario_saida := none, ultima_atividade := some now }
  · rw [hAF]; exact rfl
  · rw [hAF]; exact rfl
  · rw [hAF]
    exact effectiveMon_upsertMon_self db.monitoramento
      { operador_id := uid, status_online := none, horario_entrada := none,
        horario_almoco_inicio := none, horario_almoco_fim := some now,
        horario_saida := none, ultima_atividade := some now }
  · rw [hP]; exact rfl
  · rw [hP]; exact rfl
  · rw [hP]
    exact effectiveMon_upsertMon_self db.monitoramento
      { operador_id := uid, status_online := some true, horario_entrada := none,
        horario_almoco_inicio := none, horario_almoco_fim := none,
        horario_saida := none, ultima_atividade := some now }

/-- Witness for C1: the theorem applied to token secret 3, time 0, operator 1,
expiry 9, over the empty store. -/
theorem registrar_event_effects_witness :
    (0 : Nat) < 9
    ∧ (registrarRoute 3 0 (reqWithToken 1 "operador" 9 3) "entrada"
        { usuarios := [], monitoramento := [], nextId := 1 }).1.status = 200 :=
  ⟨by decide,
   (registrar_event_effects 3 0 1 "operador" 9
     { usuarios := [], monitoramento := [], nextId := 1 } (by decide)).1.1⟩

/-- C2: every status-writing operation — event registration of any kind, the
supervisor-issued direct status set, and the StatusRecord initialization at
operator registration — preserves the invariant that each operator id has at
most one StatusRecord row. -/
theorem status_writes_preserve_row_uniqueness (secret now : Nat) (req : ReqAuth)
    (tipo nome email senha : String) (opId : Nat) (b fails : Bool) (db : DB)
    (h : MonKeysNodup db.monitoramento) :
    MonKeysNodup (registrarRoute secret now req tipo db).2.monitoramento
    ∧ MonKeysNodup (putStatusRoute secret now req opId b db).2.monitoramento
    ∧ MonKeysNodup
        (cadastrarRoute secret now req nome email senha fails db).2.monitoramento := by
  refine ⟨?_, ?_, ?_⟩
  · rcases registrarRoute_monitoramento secret now req tipo db with he | ⟨p, he⟩
    · rw [he]; exact h
    · rw [he]; exact monKeysNodup_upsertMon _ _ h
  · rcases putStatusRoute_monitoramento secret now req opId b db with he | ⟨p, he⟩
    · rw [he]; exact h
    · rw [he]; exact monKeysNodup_upsertMon _ _ h
  · rcases cadastrarRoute_monitoramento secret now req nome email senha fails db
      with he | ⟨p, he⟩
    · rw [he]; exact h
    · rw [he]; exact monKeysNodup_insertMonIgnored _ _ h

/-- Witness for C2: a one-row valid store stays valid across all three
writes. -/
theorem status_writes_preserve_row_uniqueness_witness :
    MonKeysNodup [defaultMonRow 1]
    ∧ MonKeysNodup (registrarRoute 3 0 (reqWithToken 1 "operador" 9 3) "ping"
        { usuarios := [], monitoramento := [defaultMonRow 1], nextId := 2 }).2.monitoramento :=
  ⟨by decide,
   (status_writes_preserve_row_uniqueness 3 0 (reqWithToken 1 "operador" 9 3)
     "ping" "A" "a@x.com" "pw" 1 true false
     { usuarios := [], monitoramento := [defaultMonRow 1], nextId := 2 }
     (by decide)).1⟩

/-- C3: for every protected route (all are built from `withAuth`) and every
request whose token is missing, malformed, wrongly signed or expired, the
authentication stage answers 401 and short-circuits — the result is the
error response for every continuation, so the route handler never runs; an
expired token is rejected whatever its signature; and on a valid token the
decoded claims are handed to the continuation. -/
theorem auth_gate_screens {α : Type} (secret now : Nat) (req : ReqAuth)
    (e : Nat → String → α) (k : Claims → α) (uid : Nat) (nivel : String)
    (exp sig : Nat) :
    (tokenFrom req = none →
      withAuth secret now req e k = e 401 "Usuário não autenticado")
    ∧ (tokenFrom req = some .malformed →
      withAuth secret now req e k = e 401 "Token inválido ou expirado")
    ∧ (tokenFrom req = some (.signed uid nivel exp sig) → sig ≠ secret →
      withAuth secret now req e k = e 401 "Token inválido ou expirado")
    ∧ (tokenFrom req = some (.signed uid nivel exp sig) → exp ≤ now →
      withAuth secret now req e k = e 401 "Token inválido ou expirado")
    ∧ (tokenFrom req = some (.signed uid nivel exp secret) → now < exp →
      withAuth secret now req e k = k { userId := uid, nivel_acesso := nivel }) := by
  refine ⟨?_, ?_, ?_, ?_, ?_⟩
  · intro h
    unfold withAuth
    rw [h]
  · intro h
    unfold withAuth
    rw [h]
    rfl
  · intro h hsig
    unfold withAuth
    rw [h]
    simp [jwtVerify, hsig]
  · intro h hexp
    unfold withAuth
    rw [h]
    unfold jwtVerify
    by_cases hs : sig = secret
    · simp [hs, hexp]
    · simp [hs]
  · intro h hexp
    unfold withAuth
    rw [h]
    dsimp only
    rw [jwtVerify_valid secret now uid nivel exp hexp]

/-- Witness for C3: the five screening cases each applied at a concrete
request (missing, malformed, bad signature, expired — even with a good
signature —, and valid). -/
theorem auth_gate_screens_witness :
    withAuth 5 10 { sessionToken := none, cookieToken := none }
        (fun s m => (s, m)) (fun c => (200, c.nivel_acesso))
      = (401, "Usuário não autenticado")
    ∧ withAuth 5 10 { sessionToken := some .malformed, cookieToken := none }
        (fun s m => (s, m)) (fun c => (200, c.nivel_acesso))
      = (401, "Token inválido ou expirado")
    ∧ withAuth 5 10 { sessionToken := some (.signed 1 "operador" 99 6), cookieToken := none }
        (fun s m => (s, m)) (fun c => (200, c.nivel_acesso))
      = (401, "Token inválido ou expirado")
    ∧ withAuth 5 100 { sessionToken := some (.signed 1 "operador" 99 5), cookieToken := none }
        (fun s m => (s, m)) (fun c => (200, c.nivel_acesso))
      = (401, "Token inválido ou expirado")
    ∧ withAuth 5 10 { sessionToken := some (.signed 1 "operador" 99 5), cookieToken := none }
        (fun s m => (s, m)) (fun c => (200, c.nivel_acesso))
      = (200, "operador") :=
  ⟨(auth_gate_screens 5 10 _ _ _ 1 "operador" 99 6).1 rfl,
   (auth_gate_screens 5 10 _ _ _ 1 "operador" 99 6).2.1 rfl,
   (auth_gate_screens 5 10 _ _ _ 1 "operador" 99 6).2.2.1 rfl (by decide),
   (auth_gate_screens 5 100 _ _ _ 1 "operador" 99 5).2.2.2.1 rfl (by decide),
   (auth_gate_screens 5 10 _ _ _ 1 "operador" 99 5).2.2.2.2 rfl (by decide)⟩

/-- C7 counterexample: the claim says only operator-level callers can register
a status event and any other access level is rejected before any write; but
a caller whose valid token carries the supervisor level gets 200 and the
status store is written (the route's middleware chain has no role gate). -/
theorem registrar_role_gate_counterexample :
    (registrarRoute 3 0 (reqWithToken 1 "supervisor" 9 3) "ping"
        { usuarios := [], monitoramento := [], nextId := 1 }).1.status = 200
    ∧ (registrarRoute 3 0 (reqWithToken 1 "supervisor" 9 3) "ping"
        { usuarios := [], monitoramento := [], nextId := 1 }).2.monitoramento
      = [{ operador_id := 1, status_online := true, horario_entrada := none,
           horario_almoco_inicio := none, horario_almoco_fim := none,
           horario_saida := none, ultima_atividade := some 0 }] := by
  decide

/-- C7 (amended): `POST /monitoramento/registrar` requires authentication
only — a caller with a valid token of ANY access level reaches the handler
unchanged (there is no role gate) — while an unauthenticated request is
rejected with 401 before any write. -/
theorem registrar_requires_authentication_only (secret now uid : Nat)
    (nivel : String) (exp : Nat) (tipo : String) (db : DB) (hexp : now < exp) :
    registrarRoute secret now (reqWithToken uid nivel exp secret) tipo db
      = registrarHandler { userId := uid, nivel_acesso := nivel } tipo now db
    ∧ (registrarRoute secret now { sessionToken := none, cookieToken := none }
        tipo db).1.status = 401
    ∧ (registrarRoute secret now { sessionToken := none, cookieToken := none }
        tipo db).2 = db :=
  ⟨registrarRoute_valid secret now uid nivel exp tipo db hexp, rfl, rfl⟩

/-- Witness for C7's amended theorem: a supervisor-level caller reaches the
handler. -/
theorem registrar_requires_authentication_only_witness :
    (0 : Nat) < 9
    ∧ registrarRoute 3 0 (reqWithToken 2 "supervisor" 9 3) "ping"
        { usuarios := [], monitoramento := [], nextId := 1 }
      = registrarHandler { userId := 2, nivel_acesso := "supervisor" } "ping" 0
        { usuarios := [], monitoramento := [], nextId := 1 } :=
  ⟨by decide,
   (registrar_requires_authentication_only 3 0 2 "supervisor" 9 "ping"
     { usuarios := [], monitoramento := [], nextId := 1 } (by decide)).1⟩

/-- C8: an authenticated `POST /monitoramento/registrar` whose event kind is
none of the five recognized ones is rejected with 400 `InvalidEvent` and no
mutation occurs — the whole database state, the caller's StatusRecord and
its last-activity timestamp included, is untouched. -/
theorem registrar_invalid_tipo_no_mutation (secret now uid : Nat)
    (nivel : String) (exp : Nat) (tipo : String) (db : DB) (hexp : now < exp)
    (h1 : tipo ≠ "entrada") (h2 : tipo ≠ "saida") (h3 : tipo ≠ "almoco_inicio")
    (h4 : tipo ≠ "almoco_fim") (h5 : tipo ≠ "ping") :
    (registrarRoute secret now (reqWithToken uid nivel exp secret) tipo db).1.status = 400
    ∧ (registrarRoute secret now (reqWithToken uid nivel exp secret) tipo db).1.error
      = some "Tipo de evento inválido"
    ∧ (registrarRoute secret now (reqWithToken uid nivel exp secret) tipo db).2 = db := by
  have hp : registrarPayload tipo uid now = none := by
    unfold registrarPayload
    simp [h1, h2, h3, h4, h5]
  rw [registrarRoute_valid secret now uid nivel exp tipo db hexp]
  unfold registrarHandler
  dsimp only
  rw [hp]
  exact ⟨rfl, rfl, rfl⟩

/-- Witness for C8: the unrecognized kind `"almoco"` against a one-row
store. -/
theorem registrar_invalid_tipo_no_mutation_witness :
    (0 : Nat) < 9
    ∧ (registrarRoute 3 0 (reqWithToken 1 "operador" 9 3) "almoco"
        { usuarios := [], monitoramento := [defaultMonRow 1], nextId := 2 }).2
      = { usuarios := [], monitoramento := [defaultMonRow 1], nextId := 2 } :=
  ⟨by decide,
   (registrar_invalid_tipo_no_mutation 3 0 1 "operador" 9 "almoco"
     { usuarios := [], monitoramento := [defaultMonRow 1], nextId := 2 }
     (by decide) (by decide) (by decide) (by decide) (by decide) (by decide)).2.2⟩

/-- C4: for every supervisor-authenticated caller and every operator id not
referenced by any user row whose supervisor reference equals the caller
(nonexistent users included), `GET /monitoramento/:operadorId` and
`PUT /monitoramento/:operadorId/status` both answer 404 with the same
constant message — which therefore cannot distinguish a nonexistent
operator from one supervised by someone else — and the PUT leaves the
whole store untouched. -/
theorem unowned_operator_not_found (secret now uid exp opId : Nat) (b : Bool)
    (db : DB) (hexp : now < exp)
    (hno : ∀ u ∈ db.usuarios, ¬(u.id = opId ∧ u.supervisor_id = some uid)) :
    (getMonRoute secret now (reqWithToken uid "supervisor" exp secret) opId db).1.status = 404
    ∧ (getMonRoute secret now (reqWithToken uid "supervisor" exp secret) opId db).1.error
      = some "Operador não encontrado"
    ∧ (getMonRoute secret now (reqWithToken uid "supervisor" exp secret) opId db).2 = db
    ∧ (putStatusRoute secret now (reqWithToken uid "supervisor" exp secret) opId b db).1.status = 404
    ∧ (putStatusRoute secret now (reqWithToken uid "supervisor" exp secret) opId b db).1.error
      = some "Operador não encontrado"
    ∧ (putStatusRoute secret now (reqWithToken uid "supervisor" exp secret) opId b db).2 = db := by
  have hfilter : db.usuarios.filter
      (fun u => u.id == opId && u.supervisor_id == some uid) = [] := by
    rw [List.filter_eq_nil_iff]
    intro u hu
    have hn := hno u hu
    simp only [Bool.and_eq_true, beq_iff_eq]
    exact fun hc => hn ⟨hc.1, hc.2⟩
  rw [getMonRoute_valid secret now uid exp opId db hexp,
    putStatusRoute_valid secret now uid exp opId b db hexp]
  unfold getMonHandler putStatusHandler
  dsimp only
  rw [hfilter]
  exact ⟨rfl, rfl, rfl, rfl, rfl, rfl⟩

/-- Witness for C4: operator 2 exists but is supervised by 7, not by the
caller 1; operator 3 does not exist at all — both give the same 404. -/
theorem unowned_operator_not_found_witness :
    ((0 : Nat) < 9
      ∧ (∀ u ∈ ([{ id := 2, nome := "B", email := "b@x.com", senha := "d",
                   nivel_acesso := "operador", supervisor_id := some 7 }] : List Usuario),
          ¬(u.id = 2 ∧ u.supervisor_id = some 1)))
    ∧ (getMonRoute 3 0 (reqWithToken 1 "supervisor" 9 3) 2
        { usuarios := [{ id := 2, nome := "B", email := "b@x.com", senha := "d",
                         nivel_acesso := "operador", supervisor_id := some 7 }],
          monitoramento := [], nextId := 3 }).1.status = 404
    ∧ (putStatusRoute 3 0 (reqWithToken 1 "supervisor" 9 3) 3 true
        { usuarios := [{ id := 2, nome := "B", email := "b@x.com", senha := "d",
                         nivel_acesso := "operador", supervisor_id := some 7 }],
          monitoramento := [], nextId := 3 }).2
      = { usuarios := [{ id := 2, nome := "B", email := "b@x.com", senha := "d",
                         nivel_acesso := "operador", supervisor_id := some 7 }],
          monitoramento := [], nextId := 3 } :=
  ⟨⟨by decide, by decide⟩,
   (unowned_operator_not_found 3 0 1 9 2 true
     { usuarios := [{ id := 2, nome := "B", email := "b@x.com", senha := "d",
                      nivel_acesso := "operador", supervisor_id := some 7 }],
       monitoramento := [], nextId := 3 } (by decide) (by decide)).1,
   (unowned_operator_not_found 3 0 1 9 3 true
     { usuarios := [{ id := 2, nome := "B", email := "b@x.com", senha := "d",
                      nivel_acesso := "operador", supervisor_id := some 7 }],
       monitoramento := [], nextId := 3 } (by decide) (by decide)).2.2.2.2.2⟩

/-- C5: for a supervisor-authenticated `POST /operador/cadastrar` (under the
unique-email invariant): a pre-existing row with the email is rejected with
400 before any insert, leaving the store untouched; on a fresh email a user
row is inserted with access level fixed to `operador` and supervisor
reference set to the caller, an initial StatusRecord (offline, all
timestamps null) is created, and the response is 201 carrying the new id. -/
theorem cadastrar_semantics (secret now uid exp : Nat) (nome email senha : String)
    (db : DB) (hexp : now < exp) :
    ((db.usuarios.map (fun u => u.email)).Nodup →
      ∀ u ∈ db.usuarios, u.email = email →
        (cadastrarRoute secret now (reqWithToken uid "supervisor" exp secret)
          nome email senha false db).1.status = 400
        ∧ (cadastrarRoute secret now (reqWithToken uid "supervisor" exp secret)
            nome email senha false db).1.error = some "E-mail já cadastrado"
        ∧ (cadastrarRoute secret now (reqWithToken uid "supervisor" exp secret)
            nome email senha false db).2 = db)
    ∧ ((∀ u ∈ db.usuarios, u.email ≠ email) →
      (∀ r ∈ db.monitoramento, r.operador_id ≠ db.nextId) →
        (cadastrarRoute secret now (reqWithToken uid "supervisor" exp secret)
          nome email senha false db).1.status = 201
        ∧ (cadastrarRoute secret now (reqWithToken uid "supervisor" exp secret)
            nome email senha false db).1.operador_id = some db.nextId
        ∧ (cadastrarRoute secret now (reqWithToken uid "supervisor" exp secret)
            nome email senha false db).2.usuarios
          = db.usuarios ++ [{ id := db.nextId, nome := nome, email := email,
                              senha := bcryptHash senha, nivel_acesso := "operador",
                              supervisor_id := some uid }]
        ∧ (cadastrarRoute secret now (reqWithToken uid "supervisor" exp secret)
            nome email senha false db).2.monitoramento
          = db.monitoramento ++ [defaultMonRow db.nextId]) := by
  rw [cadastrarRoute_valid secret now uid exp nome email senha false db hexp]
  constructor
  · intro hnodup u hu he
    rw [cadastrarHandler_dup_eq _ _ _ _ _ _ hnodup u hu he]
    exact ⟨rfl, rfl, rfl⟩
  · intro hnone hfresh
    rw [cadastrarHandler_fresh_eq _ _ _ _ _ _ hnone]
    refine ⟨rfl, rfl, rfl, ?_⟩
    exact insertMonIgnored_not_present db.monitoramento
      { payloadBase db.nextId with status_online := some false } hfresh

/-- Witness for C5: both branches — registering `a@x.com` twice under
supervisor 1. -/
theorem cadastrar_semantics_witness :
    (cadastrarRoute 3 0 (reqWithToken 1 "supervisor" 9 3) "A" "a@x.com" "pw" false
        { usuarios := [{ id := 1, nome := "S", email := "s@x.com", senha := "d",
                         nivel_acesso := "supervisor", supervisor_id := none }],
          monitoramento := [], nextId := 2 }).1.status = 201
    ∧ (cadastrarRoute 3 0 (reqWithToken 1 "supervisor" 9 3) "A2" "s@x.com" "pw" false
        { usuarios := [{ id := 1, nome := "S", email := "s@x.com", senha := "d",
                         nivel_acesso := "supervisor", supervisor_id := none }],
          monitoramento := [], nextId := 2 }).1.status = 400 :=
  ⟨((cadastrar_semantics 3 0 1 9 "A" "a@x.com" "pw"
      { usuarios := [{ id := 1, nome := "S", email := "s@x.com", senha := "d",
                       nivel_acesso := "supervisor", supervisor_id := none }],
        monitoramento := [], nextId := 2 } (by decide)).2
    (by decide) (by decide)).1,
   ((cadastrar_semantics 3 0 1 9 "A2" "s@x.com" "pw"
      { usuarios := [{ id := 1, nome := "S", email := "s@x.com", senha := "d",
                       nivel_acesso := "supervisor", supervisor_id := none }],
        monitoramento := [], nextId := 2 } (by decide)).1
    (by decide)
    { id := 1, nome := "S", email := "s@x.com", senha := "d",
      nivel_acesso := "supervisor", supervisor_id := none }
    (by decide) (by decide)).1⟩

/-- C6 counterexample: after supervisor 1 registers operator "A",
`GET /operador/list` returns the new operator's entry WITHOUT any online
flag (the handler selects only id, nome, email, nivel_acesso), whereas the
claim requires every entry to carry an online flag joined from the Status
Ledger, `false` for the fresh operator. -/
theorem list_no_online_flag_counterexample :
    (listRoute 3 0 (reqWithToken 1 "supervisor" 9 3)
        (cadastrarRoute 3 0 (reqWithToken 1 "supervisor" 9 3) "A" "a@x.com" "pw" false
          { usuarios := [{ id := 1, nome := "S", email := "s@x.com", senha := "d",
                           nivel_acesso := "supervisor", supervisor_id := none }],
            monitoramento := [], nextId := 2 }).2).1.data
      = some [{ id := 2, nome := "A", email := "a@x.com",
                nivel_acesso := "operador", online := none }] := by
  decide

/-- C6 (amended): `GET /operador/list` returns exactly the users whose
supervisor reference equals the caller's id, each entry carrying id, name,
email and access level but NO online flag (the route performs no join with
the Status Ledger); and a `registerOperator` immediately followed by
`listOperators` by the same supervisor yields a list including the newly
created operator (its online flag simply absent, not `false`). -/
theorem list_operators_roundtrip (secret now uid exp : Nat)
    (nome email senha : String) (db : DB) (hexp : now < exp) :
    ((listRoute secret now (reqWithToken uid "supervisor" exp secret) db).1.data
        = some ((db.usuarios.filter (fun u => u.supervisor_id == some uid)).map
            entryOfUsuario))
    ∧ (∀ l, (listRoute secret now (reqWithToken uid "supervisor" exp secret) db).1.data
          = some l → ∀ ent ∈ l, ent.online = none)
    ∧ ((∀ u ∈ db.usuarios, u.email ≠ email) →
      ∃ l, (listRoute secret now (reqWithToken uid "supervisor" exp secret)
              (cadastrarRoute secret now (reqWithToken uid "supervisor" exp secret)
                nome email senha false db).2).1.data = some l
        ∧ { id := db.nextId, nome := nome, email := email,
            nivel_acesso := "operador", online := none } ∈ l) := by
  have hl := listRoute_valid secret now uid exp db hexp
  refine ⟨?_, ?_, ?_⟩
  · rw [hl]
    exact rfl
  · intro l hcl ent hent
    rw [hl] at hcl
    have h0 : (listHandler { userId := uid, nivel_acesso := "supervisor" } db).1.data
        = some ((db.usuarios.filter (fun u => u.supervisor_id == some uid)).map
            entryOfUsuario) := rfl
    rw [h0] at hcl
    obtain rfl := Option.some.inj hcl
    obtain ⟨v, hv, rfl⟩ := List.mem_map.mp hent
    rfl
  · intro hnone
    rw [cadastrarRoute_valid secret now uid exp nome email senha false db hexp,
      cadastrarHandler_fresh_eq _ _ _ _ _ _ hnone,
      listRoute_valid secret now uid exp _ hexp]
    refine Exists.intro _ ⟨rfl, ?_⟩
    show entryOfUsuario ({ id := db.nextId, nome := nome, email := email,
                           senha := bcryptHash senha, nivel_acesso := "operador",
                           supervisor_id := some uid } : Usuario) ∈ _
    refine List.mem_map_of_mem entryOfUsuario (List.mem_filter.mpr ⟨?_, ?_⟩)
    · exact List.mem_append_right _ (List.mem_singleton_self _)
    · simp

/-- Witness for C6's amended theorem: the round-trip over the one-supervisor
store. -/
theorem list_operators_roundtrip_witness :
    ∃ l, (listRoute 3 0 (reqWithToken 1 "supervisor" 9 3)
            (cadastrarRoute 3 0 (reqWithToken 1 "supervisor" 9 3) "A" "a@x.com" "pw" false
              { usuarios := [{ id := 1, nome := "S", email := "s@x.com", senha := "d",
                               nivel_acesso := "supervisor", supervisor_id := none }],
                monitoramento := [], nextId := 2 }).2).1.data = some l
      ∧ { id := 2, nome := "A", email := "a@x.com",
          nivel_acesso := "operador", online := none } ∈ l :=
  (list_operators_roundtrip 3 0 1 9 "A" "a@x.com" "pw"
    { usuarios := [{ id := 1, nome := "S", email := "s@x.com", senha := "d",
                     nivel_acesso := "supervisor", supervisor_id := none }],
      monitoramento := [], nextId := 2 } (by decide)).2.2 (by decide)

/-- C9 counterexample: on a supervised operator with no StatusRecord, the
later revision's `GET /monitoramento/:operadorId` answers 200 with the bare
`\x7b status_online: false \x7d` object — no timestamp fields and no
informational note — while the claim requires a synthesized default with
all timestamps null tagged with an informational note. -/
theorem getMon_default_without_note_counterexample :
    (getMonRoute 3 0 (reqWithToken 1 "supervisor" 9 3) 2
        { usuarios := [{ id := 1, nome := "S", email := "s@x.com", senha := "d",
                         nivel_acesso := "supervisor", supervisor_id := none },
                       { id := 2, nome := "A", email := "a@x.com", senha := "d",
                         nivel_acesso := "operador", supervisor_id := some 1 }],
          monitoramento := [], nextId := 3 }).1
      = { status := 200, operador := some (2, "A"),
          statusBody := some .offlineDefault, mensagem := none, error := none } := by
  decide

/-- C9 (amended): for a supervisor-authenticated GET on a supervised
operator, both revisions answer 200 and return the stored record when one
exists, and neither branch ever writes the store; when no record exists the
earlier revision synthesizes the offline default with all timestamps null
and an informational note, while the later revision returns only a bare
offline flag with no timestamp fields and no note. -/
theorem getMon_read_path (secret now uid exp opId : Nat) (db : DB)
    (u : Usuario) (r : MonRow) (usuarios1 : List Usuario) (mon1 : List MonRowV1)
    (u1 : Usuario) (r1 : MonRowV1) (hexp : now < exp)
    (hown : db.usuarios.filter
      (fun v => v.id == opId && v.supervisor_id == some uid) = [u]) :
    ((db.monitoramento.filter (fun s => s.operador_id == opId) = [r] →
      (getMonRoute secret now (reqWithToken uid "supervisor" exp secret) opId db).1
        = { status := 200, operador := some (u.id, u.nome),
            statusBody := some (.stored r), mensagem := none, error := none })
    ∧ (db.monitoramento.filter (fun s => s.operador_id == opId) = [] →
      (getMonRoute secret now (reqWithToken uid "supervisor" exp secret) opId db).1
        = { status := 200, operador := some (u.id, u.nome),
            statusBody := some .offlineDefault, mensagem := none, error := none })
    ∧ (getMonRoute secret now (reqWithToken uid "supervisor" exp secret) opId db).2 = db)
    ∧ (usuarios1.filter (fun v => v.id == opId && v.supervisor_id == some uid) = [u1] →
      ((mon1.filter (fun s => s.operador_id == opId) = [r1] →
        getMonV1Handler { userId := uid, nivel_acesso := "supervisor" } opId usuarios1 mon1
          = ({ status := 200, operador_id := some u1.id, nome := some u1.nome,
               status_online := some r1.status_online,
               horario_entrada := r1.horario_entrada,
               horario_almoco := r1.horario_almoco,
               horario_saida := r1.horario_saida,
               mensagem := none, error := none }, mon1))
      ∧ (mon1.filter (fun s => s.operador_id == opId) = [] →
        getMonV1Handler { userId := uid, nivel_acesso := "supervisor" } opId usuarios1 mon1
          = ({ status := 200, operador_id := some u1.id, nome := some u1.nome,
               status_online := some false, horario_entrada := none,
               horario_almoco := none, horario_saida := none,
               mensagem := some "Dados de monitoramento não encontrados, assumindo status offline",
               error := none }, mon1)))) := by
  constructor
  · rw [getMonRoute_valid secret now uid exp opId db hexp]
    unfold getMonHandler
    dsimp only
    rw [hown]
    refine ⟨?_, ?_, rfl⟩
    · intro hm
      rw [hm]
      exact rfl
    · intro hm
      rw [hm]
      exact rfl
  · intro hown1
    unfold getMonV1Handler
    dsimp only
    rw [hown1]
    constructor
    · intro hm
      rw [hm]
      exact rfl
    · intro hm
      rw [hm]
      exact rfl

/-- Witness for C9's amended theorem: later revision with a stored row, and
the earlier revision's no-record default. -/
theorem getMon_read_path_witness :
    (getMonRoute 3 0 (reqWithToken 1 "supervisor" 9 3) 2
        { usuarios := [{ id := 2, nome := "A", email := "a@x.com", senha := "d",
                         nivel_acesso := "operador", supervisor_id := some 1 }],
          monitoramento := [{ operador_id := 2, status_online := true,
                              horario_entrada := some 5, horario_almoco_inicio := none,
                              horario_almoco_fim := none, horario_saida := none,
                              ultima_atividade := some 6 }],
          nextId := 3 }).1
      = { status := 200, operador := some (2, "A"),
          statusBody := some (.stored { operador_id := 2, status_online := true,
                                        horario_entrada := some 5,
                                        horario_almoco_inicio := none,
                                        horario_almoco_fim := none,
                                        horario_saida := none,
                                        ultima_atividade := some 6 }),
          mensagem := none, error := none }
    ∧ getMonV1Handler { userId := 1, nivel_acesso := "supervisor" } 2
        [{ id := 2, nome := "A", email := "a@x.com", senha := "d",
           nivel_acesso := "operador", supervisor_id := some 1 }] []
      = ({ status := 200, operador_id := some 2, nome := some "A",
           status_online := some false, horario_entrada := none,
           horario_almoco := none, horario_saida := none,
           mensagem := some "Dados de monitoramento não encontrados, assumindo status offline",
           error := none }, []) :=
  ⟨(getMon_read_path 3 0 1 9 2
      { usuarios := [{ id := 2, nome := "A", email := "a@x.com", senha := "d",
                       nivel_acesso := "operador", supervisor_id := some 1 }],
        monitoramento := [{ operador_id := 2, status_online := true,
                            horario_entrada := some 5, horario_almoco_inicio := none,
                            horario_almoco_fim := none, horario_saida := none,
                            ultima_atividade := some 6 }],
        nextId := 3 }
      { id := 2, nome := "A", email := "a@x.com", senha := "d",
        nivel_acesso := "operador", supervisor_id := some 1 }
      { operador_id := 2, status_online := true, horario_entrada := some 5,
        horario_almoco_inicio := none, horario_almoco_fim := none,
        horario_saida := none, ultima_atividade := some 6 }
      [{ id := 2, nome := "A", email := "a@x.com", senha := "d",
         nivel_acesso := "operador", supervisor_id := some 1 }] []
      { id := 2, nome := "A", email := "a@x.com", senha := "d",
        nivel_acesso := "operador", supervisor_id := some 1 }
      { operador_id := 2, status_online := false, horario_entrada := none,
        horario_almoco := none, horario_saida := none }
      (by decide) (by decide)).1.1 (by decide),
   ((getMon_read_path 3 0 1 9 2
      { usuarios := [{ id := 2, nome := "A", email := "a@x.com", senha := "d",
                       nivel_acesso := "operador", supervisor_id := some 1 }],
        monitoramento := [{ operador_id := 2, status_online := true,
                            horario_entrada := some 5, horario_almoco_inicio := none,
                            horario_almoco_fim := none, horario_saida := none,
                            ultima_atividade := some 6 }],
        nextId := 3 }
      { id := 2, nome := "A", email := "a@x.com", senha := "d",
        nivel_acesso := "operador", supervisor_id := some 1 }
      { operador_id := 2, status_online := true, horario_entrada := some 5,
        horario_almoco_inicio := none, horario_almoco_fim := none,
        horario_saida := none, ultima_atividade := some 6 }
      [{ id := 2, nome := "A", email := "a@x.com", senha := "d",
         nivel_acesso := "operador", supervisor_id := some 1 }] []
      { id := 2, nome := "A", email := "a@x.com", senha := "d",
        nivel_acesso := "operador", supervisor_id := some 1 }
      { operador_id := 2, status_online := false, horario_entrada := none,
        horario_almoco := none, horario_saida := none }
      (by decide) (by decide)).2 (by decide)).2 (by decide)⟩

/-- C10: an execution of `POST /operador/cadastrar` in which the initial
StatusRecord insert fails at the store still answers 201 reporting full
success — the insert's error result is never inspected — leaving the fresh
operator (id 2) with a user row but no StatusRecord. -/
theorem cadastrar_ignores_failed_mon_insert :
    (cadastrarRoute 3 0 (reqWithToken 1 "supervisor" 9 3) "A" "a@x.com" "pw" true
        { usuarios := [{ id := 1, nome := "S", email := "s@x.com", senha := "d",
                         nivel_acesso := "supervisor", supervisor_id := none }],
          monitoramento := [], nextId := 2 }).1.status = 201
    ∧ (cadastrarRoute 3 0 (reqWithToken 1 "supervisor" 9 3) "A" "a@x.com" "pw" true
        { usuarios := [{ id := 1, nome := "S", email := "s@x.com", senha := "d",
                         nivel_acesso := "supervisor", supervisor_id := none }],
          monitoramento := [], nextId := 2 }).1.message
      = some "Operador cadastrado com sucesso"
    ∧ ((cadastrarRoute 3 0 (reqWithToken 1 "supervisor" 9 3) "A" "a@x.com" "pw" true
        { usuarios := [{ id := 1, nome := "S", email := "s@x.com", senha := "d",
                         nivel_acesso := "supervisor", supervisor_id := none }],
          monitoramento := [], nextId := 2 }).2.usuarios.map (fun u => u.id)) = [1, 2]
    ∧ findMon (cadastrarRoute 3 0 (reqWithToken 1 "supervisor" 9 3) "A" "a@x.com" "pw" true
        { usuarios := [{ id := 1, nome := "S", email := "s@x.com", senha := "d",
                         nivel_acesso := "supervisor", supervisor_id := none }],
          monitoramento := [], nextId := 2 }).2.monitoramento 2 = none := by
  decide

end Apiss
